import Mathlib

/-!
Formal model of the tbdy/yolov2 repository: the YOLOv2 detection head
(`yolov2/core/detectors/yolov2.py`) and the export/deployment pipeline
(`deploy_model.py`), with theorems checking the repository's
natural-language specification against the code.
-/

/-- A 4-D tensor shape `(batch, height, width, channels)` as used throughout
the repository (NHWC layout). -/
structure Shape where
  batch : Nat
  height : Nat
  width : Nat
  channels : Nat
deriving DecidableEq, Repr

/-- Symbolic tensor expressions: the graph a call to `yolov2_detector`
builds.  `conv_block` and `Reroute` layer applications are recorded as
constructors, mirroring the layer calls in
`yolov2/core/detectors/yolov2.py` (their internals live in
`yolov2/core/feature_extractors/darknet19.py` and
`yolov2/core/custom_layers`, outside `src/`). `concat` is the binary
channel-axis concatenation `concatenate([a, b])` used there. -/
inductive Tensor where
  | input (name : String) (s : Shape)
  | conv_block (x : Tensor) (filters : Nat) (kernel : Nat × Nat) (name : String)
  | reroute (block_size : Nat) (name : String) (x : Tensor)
  | concat (a b : Tensor) (name : String)
deriving DecidableEq, Repr

/-- Embedding of `yolov2_detector` from
`src/yolov2/core/detectors/yolov2.py` (lines 9-26).  The Python code
indexes `fine_grained_layers[0]`, which raises on an empty list; that
fallibility is embedded as `Option`. -/
def yolov2_detector (feature_map : Tensor) (fine_grained_layers : List Tensor) :
    Option Tensor :=
  match fine_grained_layers.head? with
  | none => none
  | some layer =>
    let x := Tensor.conv_block feature_map 1024 (3, 3) "DetectConv2d_1"
    let x := Tensor.conv_block x 1024 (3, 3) "DetectConv2d_2"
    let x2 := x
    let connected_layer := Tensor.conv_block layer 64 (1, 1) "FineGrained_0"
    let rerouted_layer := Tensor.reroute 2 "RerouteLayer" connected_layer
    let x := Tensor.concat rerouted_layer x2 "ConcatLayer"
    some (Tensor.conv_block x 1024 (3, 3) "DetectConv2d_3")

/-- The DetectionHead algorithm exactly as the spec words it (§4.2, steps
1-5): two 3x3/1024 blocks on the coarse tensor, a 1x1/64 block on the
fine-grained tensor, reorganize with block_size 2, concatenate rerouted
with x, then one final 3x3/1024 block. -/
def detection_head_spec (coarse fine_grained : Tensor) : Tensor :=
  let x := Tensor.conv_block
    (Tensor.conv_block coarse 1024 (3, 3) "DetectConv2d_1") 1024 (3, 3) "DetectConv2d_2"
  let connected := Tensor.conv_block fine_grained 64 (1, 1) "FineGrained_0"
  let rerouted := Tensor.reroute 2 "RerouteLayer" connected
  Tensor.conv_block (Tensor.concat rerouted x "ConcatLayer") 1024 (3, 3) "DetectConv2d_3"

/-- Shape errors raised by the layer shape rules. -/
inductive ShapeError where
  | notDivisible (block_size : Nat) (s : Shape)
  | spatialMismatch (a b : Shape)
deriving DecidableEq, Repr

/-- Modelled from the spec: shape inference for the layer calls whose
implementations are not under `src/`.  `conv_block`
(`yolov2/core/feature_extractors/darknet19.py`) is a same-padding,
stride-1 convolution block: it preserves batch and spatial dimensions and
sets the channel count to its filter count (spec §4.2 and the §8 shape
scenario).  `Reroute` (`yolov2/core/custom_layers`) follows spec §4.1:
`height' = height / block_size`, `width' = width / block_size`,
`channels' = channels * block_size ^ 2`, failing with a `ShapeError` when
a spatial dimension is not a multiple of `block_size`.  Concatenation is
along the channel axis and requires the other dimensions to match exactly
(spec §4.2 step 4). -/
def inferShape : Tensor → Except ShapeError Shape
  | .input _ s => .ok s
  | .conv_block x filters _ _ => do
      let s ← inferShape x
      pure { s with channels := filters }
  | .reroute bs _ x => do
      let s ← inferShape x
      if 1 ≤ bs ∧ s.height % bs = 0 ∧ s.width % bs = 0 then
        pure { batch := s.batch, height := s.height / bs, width := s.width / bs,
               channels := s.channels * bs ^ 2 }
      else
        throw (ShapeError.notDivisible bs s)
  | .concat a b _ => do
      let sa ← inferShape a
      let sb ← inferShape b
      if sa.batch = sb.batch ∧ sa.height = sb.height ∧ sa.width = sb.width then
        pure { sa with channels := sa.channels + sb.channels }
      else
        throw (ShapeError.spatialMismatch sa sb)

/-- A concrete 4-D tensor: a shape together with its entries, indexed
`data batch row col channel`. -/
structure CTensor where
  shape : Shape
  data : Nat → Nat → Nat → Nat → Int

/-- Modelled from the spec: the repository's `Reroute` custom layer
(`yolov2/core/custom_layers`, not under `src/`).  Per spec §4.1 it
partitions the spatial plane into non-overlapping
`block_size x block_size` tiles and moves each tile's spatial positions
into the channel axis — a pure data-layout transform with no learned
parameters — and fails with a `ShapeError` if either spatial dimension is
not an exact multiple of `block_size`. -/
def Reroute (block_size : Nat) (t : CTensor) : Except ShapeError CTensor :=
  if 1 ≤ block_size ∧ t.shape.height % block_size = 0 ∧ t.shape.width % block_size = 0 then
    .ok
      { shape :=
          { batch := t.shape.batch
            height := t.shape.height / block_size
            width := t.shape.width / block_size
            channels := t.shape.channels * block_size ^ 2 }
        data := fun n i j k =>
          t.data n
            (i * block_size + (k / t.shape.channels) / block_size)
            (j * block_size + (k / t.shape.channels) % block_size)
            (k % t.shape.channels) }
  else
    .error (ShapeError.notDivisible block_size t.shape)

/-- Metadata for one tensor bound in a serving signature
(`tf.saved_model.utils.build_tensor_info`): the underlying tensor name. -/
structure TensorInfo where
  tensor_name : String
deriving DecidableEq, Repr

/-- A serving signature definition
(`tf.saved_model.signature_def_utils.build_signature_def`). -/
structure SignatureDef where
  inputs : List (String × TensorInfo)
  outputs : List (String × TensorInfo)
  method_name : String
deriving DecidableEq, Repr

/-- The `outputs` dict built in `deploy_model.py` (lines 85-88): three
`tf.identity` tensors named after their keys, in insertion order. -/
def outputs_map : List (String × TensorInfo) :=
  [("detection_boxes", ⟨"detection_boxes"⟩),
   ("detection_scores", ⟨"detection_scores"⟩),
   ("detection_classes", ⟨"detection_classes"⟩)]

/-- `output_node_names.split(',')` in `deploy_model.py`: the keys of the
`outputs` dict. -/
def output_node_names : List String := outputs_map.map Prod.fst

/-- The TensorFlow constant
`signature_constants.DEFAULT_SERVING_SIGNATURE_DEF_KEY`. -/
def DEFAULT_SERVING_SIGNATURE_DEF_KEY : String := "serving_default"

/-- The TensorFlow constant `signature_constants.PREDICT_METHOD_NAME`. -/
def PREDICT_METHOD_NAME : String := "tensorflow/serving/predict"

/-- `tensor_info_inputs` from `deploy_model.py` (line 141): exactly one
entry keyed `inputs`, holding the model's image input tensor. -/
def tensor_info_inputs : List (String × TensorInfo) :=
  [("inputs", ⟨"image_input"⟩)]

/-- `tensor_info_outputs` from `deploy_model.py` (lines 142-144): one
entry per key of the `outputs` dict. -/
def tensor_info_outputs : List (String × TensorInfo) := outputs_map

/-- `detection_signature` from `deploy_model.py` (lines 146-150). -/
def detection_signature : SignatureDef :=
  { inputs := tensor_info_inputs
    outputs := tensor_info_outputs
    method_name := PREDICT_METHOD_NAME }

/-- The `signature_def_map` passed to
`builder.add_meta_graph_and_variables` in `deploy_model.py`
(lines 152-157): the named key and the default serving key, both bound to
`detection_signature`. -/
def signature_def_map : List (String × SignatureDef) :=
  [("predict_images", detection_signature),
   (DEFAULT_SERVING_SIGNATURE_DEF_KEY, detection_signature)]

/-- One invocation of `TransformGraph` (graph-transform tool). -/
structure TransformGraphCall where
  inputs : String
  outputs : List String
  transform_names : List String
deriving DecidableEq, Repr

/-- The `transforms` list from `deploy_model.py` (lines 108-110). -/
def transforms : List String :=
  ["add_default_attributes",
   "quantize_weights", "round_weights",
   "fold_batch_norms", "fold_old_batch_norms"]

/-- The `TransformGraph` call applied to the frozen graph in
`deploy_model.py` (lines 112-115). -/
def quantize_call : TransformGraphCall :=
  { inputs := "image_input"
    outputs := output_node_names
    transform_names := transforms }

/-- The spec's pipeline lifecycle states (§3 PipelineArtifact). -/
inductive Stage where
  | loaded
  | frozen
  | quantized
  | optimized
  | packaged
deriving DecidableEq, Repr

/-- Errors a run of `_main_` in `deploy_model.py` can terminate with.
`typeError` is the Python `TypeError` that `os.path.isfile(None)` raises
(its argument must be a path, not `None`); `ioError` is the explicit
`raise IOError("Weight file is invalid")`; the rest stand for exceptions
escaping the weight-loading, freezing, transform and packaging calls. -/
inductive PyError where
  | typeError
  | ioError (msg : String)
  | weightLoadError
  | freezeError
  | transformError
  | packagingError
deriving DecidableEq, Repr

/-- The environment one run of `_main_` executes against: the CLI
`weight_file` argument (default `None`), the filesystem's answer to
`os.path.isfile`, whether each effectful pipeline call succeeds, and the
CLI output location arguments. -/
structure Env where
  weight_file : Option String
  fileExists : String → Bool
  loadOk : Bool
  freezeOk : Bool
  quantizeOk : Bool
  optimizeOk : Bool
  packageOk : Bool
  output_dir : String
  version : String

/-- `export_path = os.path.join(args.output_dir, args.version)`. -/
def export_path (env : Env) : String := env.output_dir ++ "/" ++ env.version

/-- Observable outcome of one run of `_main_`: the pipeline stages that
completed, in completion order; the directories written; and the final
result (normal return or the exception that aborted the run). -/
structure RunResult where
  trace : List Stage
  writes : List String
  result : Except PyError Unit
deriving Repr

/-- Decidable equality for the pipeline's `Except`-valued results. -/
instance : DecidableEq (Except PyError Unit) := fun a b =>
  match a, b with
  | .ok (), .ok () => isTrue rfl
  | .error e1, .error e2 =>
    if h : e1 = e2 then isTrue (by rw [h])
    else isFalse (fun hc => h (by injection hc))
  | .ok _, .error _ => isFalse (fun hc => Except.noConfusion hc)
  | .error _, .ok _ => isFalse (fun hc => Except.noConfusion hc)

/-- Embedding of `_main_` from `deploy_model.py` (lines 50-166) as a
straight-line sequence over `Env`.  The `os.path.isfile` check runs
before any graph work; each later stage runs only if everything before it
succeeded, and the first failure aborts the run (Python exception
propagation).  The two writes of a full run are the SavedModel bundle at
`export_path` and the TensorBoard trace under `output_dir/graph_def`. -/
def deploy_main (env : Env) : RunResult :=
  match env.weight_file with
  | none =>
    { trace := [], writes := [], result := .error PyError.typeError }
  | some wf =>
    if env.fileExists wf = false then
      { trace := [], writes := [],
        result := .error (PyError.ioError "Weight file is invalid") }
    else if env.loadOk = false then
      { trace := [], writes := [], result := .error PyError.weightLoadError }
    else if env.freezeOk = false then
      { trace := [Stage.loaded], writes := [], result := .error PyError.freezeError }
    else if env.quantizeOk = false then
      { trace := [Stage.loaded, Stage.frozen], writes := [],
        result := .error PyError.transformError }
    else if env.optimizeOk = false then
      { trace := [Stage.loaded, Stage.frozen, Stage.quantized], writes := [],
        result := .error PyError.transformError }
    else if env.packageOk = false then
      { trace := [Stage.loaded, Stage.frozen, Stage.quantized, Stage.optimized],
        writes := [], result := .error PyError.packagingError }
    else
      { trace := [Stage.loaded, Stage.frozen, Stage.quantized, Stage.optimized,
                  Stage.packaged],
        writes := [export_path env, env.output_dir ++ "/graph_def"],
        result := .ok () }

/-- C1: For every coarse feature map and fine-grained feature map, the
detection head computes its output by, in this exact order: two 3x3/1024
conv blocks on the coarse tensor giving `x`, a 1x1/64 conv block on the
fine-grained tensor giving `connected`, the Reroute transform with
block_size 2 giving `rerouted`, the channel-axis concatenation of
`rerouted` and `x`, and one final 3x3/1024 conv block on the
concatenation. -/
theorem yolov2_detector_structure (feature_map layer : Tensor) (rest : List Tensor) :
    yolov2_detector feature_map (layer :: rest) =
      some (detection_head_spec feature_map layer) := rfl

/-- C2: the quantization stage applies to the frozen graph exactly the
transforms `add_default_attributes`, `quantize_weights`, `round_weights`,
`fold_batch_norms`, `fold_old_batch_norms`, in exactly that order and no
others. -/
theorem quantize_transforms_exact :
    quantize_call.transform_names =
      ["add_default_attributes", "quantize_weights", "round_weights",
       "fold_batch_norms", "fold_old_batch_norms"] := rfl

/-- C3: the serving signature binds exactly one input named `inputs` and
exactly three outputs named `detection_boxes`, `detection_scores`,
`detection_classes`, and the saved model registers exactly the two
signature keys `predict_images` and the platform default serving key,
both mapped to the identical signature definition. -/
theorem serving_signature_contract :
    detection_signature.inputs.map Prod.fst = ["inputs"] ∧
    detection_signature.outputs.map Prod.fst =
      ["detection_boxes", "detection_scores", "detection_classes"] ∧
    signature_def_map.map Prod.fst =
      ["predict_images", DEFAULT_SERVING_SIGNATURE_DEF_KEY] ∧
    DEFAULT_SERVING_SIGNATURE_DEF_KEY = "serving_default" ∧
    ∀ kv ∈ signature_def_map, kv.snd = detection_signature := by
  refine ⟨rfl, rfl, rfl, rfl, ?_⟩
  intro kv hkv
  simp only [signature_def_map, List.mem_cons, List.mem_singleton,
    List.not_mem_nil, or_false] at hkv
  rcases hkv with h | h <;> rw [h]

/-- The coarse feature map of the spec's §8 shape scenario:
shape `(1, 13, 13, 1024)`. -/
def coarse_example : Tensor := Tensor.input "feature_map" ⟨1, 13, 13, 1024⟩

/-- The fine-grained feature map of the spec's §8 shape scenario:
shape `(1, 26, 26, 512)`. -/
def fine_example : Tensor := Tensor.input "fine_grained" ⟨1, 26, 26, 512⟩

/-- The rerouted branch the detector builds on the scenario inputs. -/
def rerouted_example : Tensor :=
  Tensor.reroute 2 "RerouteLayer" (Tensor.conv_block fine_example 64 (1, 1) "FineGrained_0")

/-- The coarse branch after the two 3x3/1024 blocks on the scenario
inputs. -/
def x2_example : Tensor :=
  Tensor.conv_block
    (Tensor.conv_block coarse_example 1024 (3, 3) "DetectConv2d_1") 1024 (3, 3)
    "DetectConv2d_2"

/-- The channel-axis concatenation the detector builds on the scenario
inputs. -/
def concat_example : Tensor := Tensor.concat rerouted_example x2_example "ConcatLayer"

/-- C4 counterexample: on the spec's own scenario — coarse map
`(1, 13, 13, 1024)`, fine-grained map `(1, 26, 26, 512)` — the
DetectionHead's output tensor has 1024 channels (it is produced by the
final 3x3/1024 conv block), not `1024 + 64 * 2 ^ 2 = 1280` as the claim
states. -/
theorem detection_head_output_channels_cex :
    (yolov2_detector coarse_example [fine_example]).map inferShape =
      some (Except.ok ⟨1, 13, 13, 1024⟩) ∧
    ¬ (1024 : Nat) = 1024 + 64 * 2 ^ 2 := by
  constructor
  · rfl
  · decide

/-- C4 amended: on the scenario inputs the rerouted tensor has shape
`(1, 13, 13, 256)` and the concatenation has shape `(1, 13, 13, 1280)`,
where `1280 = 1024 + 64 * 2 ^ 2` is the channel count of the
concatenation feeding the final conv block; the head's output itself has
1024 channels. -/
theorem detection_head_shapes_amended :
    inferShape rerouted_example = Except.ok ⟨1, 13, 13, 256⟩ ∧
    inferShape concat_example = Except.ok ⟨1, 13, 13, 1280⟩ ∧
    (1280 : Nat) = 1024 + 64 * 2 ^ 2 ∧
    (yolov2_detector coarse_example [fine_example]).map inferShape =
      some (Except.ok ⟨1, 13, 13, 1024⟩) := by
  refine ⟨rfl, rfl, by decide, rfl⟩

/-- C5: for every 4-D input tensor and every `block_size ≥ 1` dividing
both spatial dimensions, the Reroute transform produces a tensor of shape
`(batch, height / block_size, width / block_size,
channels * block_size ^ 2)`. -/
theorem Reroute_shape_invariant (t : CTensor) (block_size : Nat)
    (h1 : 1 ≤ block_size)
    (hh : block_size ∣ t.shape.height) (hw : block_size ∣ t.shape.width) :
    ∃ r, Reroute block_size t = Except.ok r ∧
      r.shape =
        { batch := t.shape.batch
          height := t.shape.height / block_size
          width := t.shape.width / block_size
          channels := t.shape.channels * block_size ^ 2 } := by
  obtain ⟨kh, ekh⟩ := hh
  obtain ⟨kw, ekw⟩ := hw
  have hc : 1 ≤ block_size ∧ t.shape.height % block_size = 0 ∧
      t.shape.width % block_size = 0 :=
    ⟨h1, by rw [ekh]; exact Nat.mul_mod_right block_size kh,
     by rw [ekw]; exact Nat.mul_mod_right block_size kw⟩
  unfold Reroute
  rw [if_pos hc]
  exact ⟨_, rfl, rfl⟩

/-- A concrete `(1, 4, 4, 3)` tensor used to instantiate the Reroute
theorems. -/
def reroute_example_tensor : CTensor :=
  { shape := { batch := 1, height := 4, width := 4, channels := 3 }
    data := fun n i j k => (n + i + j + k : Int) }

theorem Reroute_shape_invariant_witness :
    1 ≤ 2 ∧ (2 ∣ reroute_example_tensor.shape.height) ∧
    (2 ∣ reroute_example_tensor.shape.width) ∧
    ∃ r, Reroute 2 reroute_example_tensor = Except.ok r ∧
      r.shape = { batch := 1, height := 2, width := 2, channels := 12 } := by
  refine ⟨by decide, ⟨2, rfl⟩, ⟨2, rfl⟩, ?_⟩
  obtain ⟨r, hr, hs⟩ :=
    Reroute_shape_invariant reroute_example_tensor 2 (by decide) ⟨2, rfl⟩ ⟨2, rfl⟩
  exact ⟨r, hr, hs.trans (by decide)⟩

/-- C6: for every 4-D input tensor and `block_size ≥ 1`, if either
spatial dimension is not an exact multiple of `block_size`, the Reroute
transform fails with a `ShapeError` instead of producing a tensor. -/
theorem Reroute_shape_error (t : CTensor) (block_size : Nat)
    (hmod : ¬ t.shape.height % block_size = 0 ∨ ¬ t.shape.width % block_size = 0) :
    Reroute block_size t =
      Except.error (ShapeError.notDivisible block_size t.shape) := by
  unfold Reroute
  rw [if_neg]
  rintro ⟨-, hh, hw⟩
  rcases hmod with h | h
  · exact h hh
  · exact h hw

/-- A concrete `(1, 5, 4, 3)` tensor whose height 2 does not divide. -/
def reroute_bad_tensor : CTensor :=
  { shape := { batch := 1, height := 5, width := 4, channels := 3 }
    data := fun n i j k => (n + i + j + k : Int) }

theorem Reroute_shape_error_witness :
    (¬ reroute_bad_tensor.shape.height % 2 = 0 ∨
     ¬ reroute_bad_tensor.shape.width % 2 = 0) ∧
    Reroute 2 reroute_bad_tensor =
      Except.error (ShapeError.notDivisible 2 ⟨1, 5, 4, 3⟩) := by
  refine ⟨Or.inl (by decide), ?_⟩
  exact Reroute_shape_error reroute_bad_tensor 2 (Or.inl (by decide))

/-- C7: for every `weight_file` path that does not name an existing file,
the run fails with the weight-file `IOError` before any pipeline stage
executes and writes nothing to disk. -/
theorem missing_weight_file_aborts (env : Env) (wf : String)
    (hwf : env.weight_file = some wf) (hex : env.fileExists wf = false) :
    (deploy_main env).result =
      Except.error (PyError.ioError "Weight file is invalid") ∧
    (deploy_main env).trace = [] ∧
    (deploy_main env).writes = [] := by
  have hrr : deploy_main env =
      { trace := [], writes := [],
        result := Except.error (PyError.ioError "Weight file is invalid") } := by
    simp [deploy_main, hwf, hex]
  rw [hrr]
  exact ⟨rfl, rfl, rfl⟩

/-- An environment whose `weight_file` names a path the filesystem does
not contain. -/
def missing_weight_env : Env :=
  { weight_file := some "/tmp/missing.weights"
    fileExists := fun _ => false
    loadOk := true, freezeOk := true, quantizeOk := true
    optimizeOk := true, packageOk := true
    output_dir := "/tmp/yolov2", version := "1" }

theorem missing_weight_file_aborts_witness :
    missing_weight_env.weight_file = some "/tmp/missing.weights" ∧
    missing_weight_env.fileExists "/tmp/missing.weights" = false ∧
    (deploy_main missing_weight_env).result =
      Except.error (PyError.ioError "Weight file is invalid") ∧
    (deploy_main missing_weight_env).trace = [] ∧
    (deploy_main missing_weight_env).writes = [] := by
  refine ⟨rfl, rfl, ?_⟩
  exact missing_weight_file_aborts missing_weight_env "/tmp/missing.weights" rfl rfl

/-- C8: every run reaches pipeline stages only in the order Loaded,
Frozen, Quantized, Optimized, Packaged: a successful run completes
exactly that sequence, and any run's completed-stage trace is a prefix of
it (so a stage failure aborts the run with every later stage, and the
Packaged terminal state, unreached). -/
theorem pipeline_stage_order (env : Env) :
    ((deploy_main env).result = Except.ok () ↔
      (deploy_main env).trace =
        [Stage.loaded, Stage.frozen, Stage.quantized, Stage.optimized,
         Stage.packaged]) ∧
    ∃ rest, (deploy_main env).trace ++ rest =
      [Stage.loaded, Stage.frozen, Stage.quantized, Stage.optimized,
       Stage.packaged] := by
  rcases hwf : env.weight_file with _ | w
  · have hrr : deploy_main env =
        { trace := [], writes := [], result := Except.error PyError.typeError } := by
      simp [deploy_main, hwf]
    rw [hrr]
    exact ⟨by decide,
      [Stage.loaded, Stage.frozen, Stage.quantized, Stage.optimized, Stage.packaged],
      rfl⟩
  · rcases hfe : env.fileExists w with _ | _
    · have hrr : deploy_main env =
          { trace := [], writes := [],
            result := Except.error (PyError.ioError "Weight file is invalid") } := by
        simp [deploy_main, hwf, hfe]
      rw [hrr]
      exact ⟨by decide,
        [Stage.loaded, Stage.frozen, Stage.quantized, Stage.optimized, Stage.packaged],
        rfl⟩
    · rcases hlo : env.loadOk with _ | _
      · have hrr : deploy_main env =
            { trace := [], writes := [],
              result := Except.error PyError.weightLoadError } := by
          simp [deploy_main, hwf, hfe, hlo]
        rw [hrr]
        exact ⟨by decide,
          [Stage.loaded, Stage.frozen, Stage.quantized, Stage.optimized, Stage.packaged],
          rfl⟩
      · rcases hfr : env.freezeOk with _ | _
        · have hrr : deploy_main env =
              { trace := [Stage.loaded], writes := [],
                result := Except.error PyError.freezeError } := by
            simp [deploy_main, hwf, hfe, hlo, hfr]
          rw [hrr]
          exact ⟨by decide,
            [Stage.frozen, Stage.quantized, Stage.optimized, Stage.packaged], rfl⟩
        · rcases hqu : env.quantizeOk with _ | _
          · have hrr : deploy_main env =
                { trace := [Stage.loaded, Stage.frozen], writes := [],
                  result := Except.error PyError.transformError } := by
              simp [deploy_main, hwf, hfe, hlo, hfr, hqu]
            rw [hrr]
            exact ⟨by decide, [Stage.quantized, Stage.optimized, Stage.packaged], rfl⟩
          · rcases hop : env.optimizeOk with _ | _
            · have hrr : deploy_main env =
                  { trace := [Stage.loaded, Stage.frozen, Stage.quantized],
                    writes := [], result := Except.error PyError.transformError } := by
                simp [deploy_main, hwf, hfe, hlo, hfr, hqu, hop]
              rw [hrr]
              exact ⟨by decide, [Stage.optimized, Stage.packaged], rfl⟩
            · rcases hpa : env.packageOk with _ | _
              · have hrr : deploy_main env =
                    { trace := [Stage.loaded, Stage.frozen, Stage.quantized,
                                Stage.optimized],
                      writes := [], result := Except.error PyError.packagingError } := by
                  simp [deploy_main, hwf, hfe, hlo, hfr, hqu, hop, hpa]
                rw [hrr]
                exact ⟨by decide, [Stage.packaged], rfl⟩
              · have hrr : deploy_main env =
                    { trace := [Stage.loaded, Stage.frozen, Stage.quantized,
                                Stage.optimized, Stage.packaged],
                      writes := [export_path env, env.output_dir ++ "/graph_def"],
                      result := Except.ok () } := by
                  simp [deploy_main, hwf, hfe, hlo, hfr, hqu, hop, hpa]
                rw [hrr]
                exact ⟨Iff.intro (fun _ => rfl) (fun _ => rfl), [], by simp⟩

/-- C9: the output of `yolov2_detector` depends only on `feature_map` and
the first element of `fine_grained_layers`: two calls on non-empty lists
with the same first element produce identical outputs. -/
theorem detector_first_layer_only (feature_map : Tensor) (l1 l2 : List Tensor)
    (h1 : l1 ≠ []) (h2 : l2 ≠ []) (hhead : l1.head? = l2.head?) :
    yolov2_detector feature_map l1 = yolov2_detector feature_map l2 := by
  unfold yolov2_detector
  rw [hhead]

theorem detector_first_layer_only_witness :
    ([Tensor.input "f" ⟨1, 26, 26, 512⟩] ≠ ([] : List Tensor)) ∧
    ([Tensor.input "f" ⟨1, 26, 26, 512⟩,
      Tensor.input "g" ⟨1, 52, 52, 256⟩] ≠ ([] : List Tensor)) ∧
    ([Tensor.input "f" ⟨1, 26, 26, 512⟩].head? =
      [Tensor.input "f" ⟨1, 26, 26, 512⟩, Tensor.input "g" ⟨1, 52, 52, 256⟩].head?) ∧
    yolov2_detector (Tensor.input "c" ⟨1, 13, 13, 1024⟩)
        [Tensor.input "f" ⟨1, 26, 26, 512⟩] =
      yolov2_detector (Tensor.input "c" ⟨1, 13, 13, 1024⟩)
        [Tensor.input "f" ⟨1, 26, 26, 512⟩, Tensor.input "g" ⟨1, 52, 52, 256⟩] := by
  refine ⟨by simp, by simp, rfl, ?_⟩
  exact detector_first_layer_only (Tensor.input "c" ⟨1, 13, 13, 1024⟩)
    [Tensor.input "f" ⟨1, 26, 26, 512⟩]
    [Tensor.input "f" ⟨1, 26, 26, 512⟩, Tensor.input "g" ⟨1, 52, 52, 256⟩]
    (by simp) (by simp) rfl

/-- C10: when `weight_file` is left at its default `None`, the run still
aborts before any pipeline stage executes, but with the `TypeError` that
`os.path.isfile(None)` raises, whereas a `weight_file` naming no existing
file aborts with the `IOError` reading `Weight file is invalid`. -/
theorem none_weight_file_type_error (env : Env) (h : env.weight_file = none) :
    (deploy_main env).result = Except.error PyError.typeError ∧
    (deploy_main env).trace = [] ∧
    ∀ env2 : Env, ∀ p : String, env2.weight_file = some p →
      env2.fileExists p = false →
      (deploy_main env2).result =
        Except.error (PyError.ioError "Weight file is invalid") := by
  refine ⟨?_, ?_, ?_⟩
  · simp [deploy_main, h]
  · simp [deploy_main, h]
  · intro env2 p hwf2 hex2
    simp [deploy_main, hwf2, hex2]

/-- The environment of a run with every CLI argument left at its
default: `weight_file` is `None`. -/
def default_args_env : Env :=
  { weight_file := none
    fileExists := fun _ => false
    loadOk := true, freezeOk := true, quantizeOk := true
    optimizeOk := true, packageOk := true
    output_dir := "/tmp/yolov2", version := "1" }

/-- `default_args_env` with a `weight_file` path the filesystem does not
contain. -/
def bad_path_env : Env :=
  { default_args_env with weight_file := some "/no/such/file" }

theorem none_weight_file_type_error_witness :
    default_args_env.weight_file = none ∧
    bad_path_env.weight_file = some "/no/such/file" ∧
    bad_path_env.fileExists "/no/such/file" = false ∧
    (deploy_main default_args_env).result = Except.error PyError.typeError ∧
    (deploy_main default_args_env).trace = [] ∧
    (deploy_main bad_path_env).result =
      Except.error (PyError.ioError "Weight file is invalid") := by
  have h := none_weight_file_type_error default_args_env rfl
  exact ⟨rfl, rfl, rfl, h.1, h.2.1, h.2.2 bad_path_env "/no/such/file" rfl rfl⟩
